import Mathlib

/-!
# Verification of the intent/goal persistence layer

Shallow embedding, in Lean 4, of the persistence and normalization core of
the `intent` service: the list-value normalizer used by the HTTP handlers
(`normalizeGoalValues` in `backend/internal/handlers/goals.go`,
`normalizeCollaborators` in the intents handler), the repository operations
(`CreateIntent` in `backend/internal/database/intents.go`; `CreateGoal`,
`GetGoal`, `UpdateGoal`, `DeleteGoal`, `ListGoals` in the goals database
file), and the dynamic SQL built by `ListGoals`.

Go strings are modelled as lists of characters, Go string slices as
`Option (List GoStr)` (`none` is a nil slice, `some l` a non-nil slice),
timestamps as integers, and fallible operations return `Except`.
-/

namespace IntentService

/-- A Go `string`, modelled as its list of characters. -/
abbrev GoStr := List Char

/-- A Go `[]string`: `none` models a nil slice, `some l` a non-nil slice
holding the elements `l`.  (Go distinguishes nil from empty slices, and
`encoding/json` serializes them differently.) -/
abbrev GoSlice := Option (List GoStr)

/-- A `time.Time` instant (UTC), modelled abstractly as an integer. -/
abbrev Timestamp := Int

/-- A `uuid.UUID`, modelled abstractly. -/
abbrev UUID := Nat

/-- Go's `unicode.IsSpace`: the Unicode `White_Space` property. -/
def goIsSpace (c : Char) : Bool :=
  (0x09 ≤ c.toNat && c.toNat ≤ 0x0D) || c.toNat == 0x20 || c.toNat == 0x85 ||
  c.toNat == 0xA0 || c.toNat == 0x1680 ||
  (0x2000 ≤ c.toNat && c.toNat ≤ 0x200A) || c.toNat == 0x2028 ||
  c.toNat == 0x2029 || c.toNat == 0x202F || c.toNat == 0x205F ||
  c.toNat == 0x3000

/-- Go's `strings.TrimSpace`: drop leading and trailing white space. -/
def goTrimSpace (s : GoStr) : GoStr :=
  ((s.dropWhile goIsSpace).reverse.dropWhile goIsSpace).reverse

/-- Go's `strings.ToLower`, restricted to the ASCII case mapping
(`Char.toLower`); the full Unicode case table is irrelevant to the claims
proved here, which depend only on `goToLower` being a function applied
uniformly to the trimmed values. -/
def goToLower (s : GoStr) : GoStr :=
  s.map Char.toLower

/-- The loop body shared by `normalizeGoalValues` (handlers/goals.go) and
`normalizeCollaborators` (handlers/intents.go): iterate over the values,
trim each, skip the ones that become empty, skip the ones whose lowercased
form was already `seen`, and otherwise emit the trimmed value and record
its lowercased key. -/
def normalizeLoop (values : List GoStr) (seen : List GoStr) : List GoStr :=
  match values with
  | [] => []
  | value :: rest =>
    let trimmed := goTrimSpace value
    if trimmed = [] then
      normalizeLoop rest seen
    else
      let key := goToLower trimmed
      if key ∈ seen then
        normalizeLoop rest seen
      else
        trimmed :: normalizeLoop rest (key :: seen)

/-- `normalizeGoalValues` from `backend/internal/handlers/goals.go`:
returns `[]string{}` for a nil or empty slice, otherwise runs the
trim/drop-empty/dedup loop starting from an empty `seen` set.  The result
slice is always non-nil (`some _`). -/
def normalizeGoalValues (values : GoSlice) : GoSlice :=
  if (values.getD []).length = 0 then
    some []
  else
    some (normalizeLoop (values.getD []) [])

/-- `normalizeCollaborators` from the intents handler: textually the same
algorithm as `normalizeGoalValues`. -/
def normalizeCollaborators (collaborators : GoSlice) : GoSlice :=
  if (collaborators.getD []).length = 0 then
    some []
  else
    some (normalizeLoop (collaborators.getD []) [])

theorem normalizeGoalValues_eq (values : GoSlice) :
    normalizeGoalValues values = some (normalizeLoop (values.getD []) []) := by
  unfold normalizeGoalValues
  rcases values with _ | l
  · simp [normalizeLoop]
  · simp only [Option.getD_some]
    rcases l with _ | ⟨x, xs⟩
    · simp [normalizeLoop]
    · simp

theorem normalizeCollaborators_eq (collaborators : GoSlice) :
    normalizeCollaborators collaborators
      = some (normalizeLoop (collaborators.getD []) []) := by
  unfold normalizeCollaborators
  rcases collaborators with _ | l
  · simp [normalizeLoop]
  · simp only [Option.getD_some]
    rcases l with _ | ⟨x, xs⟩
    · simp [normalizeLoop]
    · simp

example :
    normalizeGoalValues (some ["Jamie".toList, "JAMIE".toList, " Ana ".toList])
      = some ["Jamie".toList, "Ana".toList] := by decide

/-! ## Specification-side description of the normalizer

`specDedupByLowerKey` and `specNormalize` follow the spec's words for the
List-Value Normalizer ("trims, drops empty, and case-insensitively
deduplicates an ordered sequence of strings, preserving first-seen casing
and order"), to be compared with the loop translated from the source. -/

/-- Keep only the first occurrence among elements sharing a lowercased
key, preserving relative order. -/
def specDedupByLowerKey (l : List GoStr) : List GoStr :=
  match l with
  | [] => []
  | x :: xs =>
    x :: specDedupByLowerKey (xs.filter fun y => decide (goToLower y ≠ goToLower x))
termination_by l.length
decreasing_by
  simp only [List.length_cons]
  exact Nat.lt_succ_of_le (List.length_filter_le _ _)

/-- The spec's List-Value Normalizer: trim every element, drop the ones
that become empty, and keep the first occurrence per case-insensitive key. -/
def specNormalize (values : List GoStr) : List GoStr :=
  specDedupByLowerKey ((values.map goTrimSpace).filter fun t => decide (t ≠ []))

theorem normalizeLoop_nil (seen : List GoStr) : normalizeLoop [] seen = [] := rfl

theorem normalizeLoop_cons (value : GoStr) (rest : List GoStr) (seen : List GoStr) :
    normalizeLoop (value :: rest) seen
      = if goTrimSpace value = [] then normalizeLoop rest seen
        else if goToLower (goTrimSpace value) ∈ seen then normalizeLoop rest seen
        else goTrimSpace value
          :: normalizeLoop rest (goToLower (goTrimSpace value) :: seen) := rfl

theorem normalizeLoop_eq_dedup (values : List GoStr) :
    ∀ seen : List GoStr,
      normalizeLoop values seen
        = specDedupByLowerKey
            ((values.map goTrimSpace).filter fun t =>
              decide (t ≠ [] ∧ goToLower t ∉ seen)) := by
  induction values with
  | nil => intro seen; simp [normalizeLoop, specDedupByLowerKey]
  | cons value rest ih =>
    intro seen
    rw [normalizeLoop_cons]
    by_cases htr : goTrimSpace value = []
    · have hp : (decide (goTrimSpace value ≠ []
          ∧ goToLower (goTrimSpace value) ∉ seen)) = false := by
        simp [htr]
      rw [if_pos htr, ih seen, List.map_cons, List.filter_cons, hp]
      simp
    · by_cases hk : goToLower (goTrimSpace value) ∈ seen
      · have hp : (decide (goTrimSpace value ≠ []
            ∧ goToLower (goTrimSpace value) ∉ seen)) = false := by
          simp [hk]
        rw [if_neg htr, if_pos hk, ih seen, List.map_cons, List.filter_cons, hp]
        simp
      · have hp : (decide (goTrimSpace value ≠ []
            ∧ goToLower (goTrimSpace value) ∉ seen)) = true := by
          simp [htr, hk]
        rw [if_neg htr, if_neg hk, ih (goToLower (goTrimSpace value) :: seen),
          List.map_cons, List.filter_cons, hp]
        simp only [if_true]
        rw [specDedupByLowerKey]
        congr 1
        rw [List.filter_filter]
        congr 1
        apply List.filter_congr
        intro a _
        by_cases h1 : a = [] <;>
          by_cases h2 : goToLower a ∈ seen <;>
            by_cases h3 : goToLower a = goToLower (goTrimSpace value) <;>
              simp [h1, h2, h3, List.mem_cons]

/-- The normalizer loop started with an empty `seen` set computes exactly
the spec-side normalizer. -/
theorem normalizeLoop_eq_specNormalize (values : List GoStr) :
    normalizeLoop values [] = specNormalize values := by
  rw [normalizeLoop_eq_dedup values [], specNormalize]
  congr 1
  apply List.filter_congr
  intro a _
  simp

/-! ## Idempotence of trimming and of the normalizer -/

theorem goTrimSpace_eq_rdropWhile (s : GoStr) :
    goTrimSpace s = List.rdropWhile goIsSpace (s.dropWhile goIsSpace) := rfl

theorem dropWhile_goTrimSpace (s : GoStr) :
    (goTrimSpace s).dropWhile goIsSpace = goTrimSpace s := by
  rw [List.dropWhile_eq_self_iff]
  intro hl
  have hpre : goTrimSpace s <+: s.dropWhile goIsSpace := List.rdropWhile_prefix _ _
  have hu : (s.dropWhile goIsSpace).dropWhile goIsSpace = s.dropWhile goIsSpace :=
    List.dropWhile_idempotent _ _
  rw [List.dropWhile_eq_self_iff] at hu
  have hlu : 0 < (s.dropWhile goIsSpace).length := lt_of_lt_of_le hl hpre.length_le
  have hhead := hu hlu
  obtain ⟨t, ht⟩ := hpre
  have hget : (goTrimSpace s).get ⟨0, hl⟩ = (s.dropWhile goIsSpace).get ⟨0, hlu⟩ := by
    simp only [List.get_eq_getElem, ← ht]
    exact (List.getElem_append_left hl).symm
  rw [hget]
  exact hhead

theorem goTrimSpace_idem (s : GoStr) :
    goTrimSpace (goTrimSpace s) = goTrimSpace s := by
  calc goTrimSpace (goTrimSpace s)
      = List.rdropWhile goIsSpace ((goTrimSpace s).dropWhile goIsSpace) := rfl
    _ = List.rdropWhile goIsSpace (goTrimSpace s) := by rw [dropWhile_goTrimSpace]
    _ = List.rdropWhile goIsSpace
          (List.rdropWhile goIsSpace (s.dropWhile goIsSpace)) := rfl
    _ = List.rdropWhile goIsSpace (s.dropWhile goIsSpace) :=
        List.rdropWhile_idempotent _ _
    _ = goTrimSpace s := rfl

/-- Every value emitted by the normalizer loop is trimmed and non-empty. -/
theorem normalizeLoop_mem_trimmed (values : List GoStr) :
    ∀ seen : List GoStr, ∀ y ∈ normalizeLoop values seen,
      goTrimSpace y = y ∧ y ≠ [] := by
  induction values with
  | nil => intro seen y hy; simp [normalizeLoop_nil] at hy
  | cons v rest ih =>
    intro seen y hy
    rw [normalizeLoop_cons] at hy
    by_cases htr : goTrimSpace v = []
    · rw [if_pos htr] at hy; exact ih seen y hy
    · by_cases hk : goToLower (goTrimSpace v) ∈ seen
      · rw [if_neg htr, if_pos hk] at hy; exact ih seen y hy
      · rw [if_neg htr, if_neg hk] at hy
        rcases List.mem_cons.mp hy with rfl | hy
        · exact ⟨goTrimSpace_idem v, htr⟩
        · exact ih _ y hy

/-- The keys of the values emitted by the normalizer loop are pairwise
distinct and disjoint from the `seen` set it started with. -/
theorem normalizeLoop_keys (values : List GoStr) :
    ∀ seen : List GoStr,
      ((normalizeLoop values seen).map goToLower).Nodup
        ∧ ∀ y ∈ normalizeLoop values seen, goToLower y ∉ seen := by
  induction values with
  | nil => intro seen; simp [normalizeLoop_nil]
  | cons v rest ih =>
    intro seen
    rw [normalizeLoop_cons]
    by_cases htr : goTrimSpace v = []
    · rw [if_pos htr]; exact ih seen
    · by_cases hk : goToLower (goTrimSpace v) ∈ seen
      · rw [if_neg htr, if_pos hk]; exact ih seen
      · rw [if_neg htr, if_neg hk]
        obtain ⟨hnd, hout⟩ := ih (goToLower (goTrimSpace v) :: seen)
        refine ⟨?_, ?_⟩
        · rw [List.map_cons, List.nodup_cons]
          refine ⟨?_, hnd⟩
          intro hmem
          obtain ⟨y, hy, hyk⟩ := List.mem_map.mp hmem
          exact (hout y hy) (by rw [hyk]; exact List.mem_cons_self _ _)
        · intro y hy
          rcases List.mem_cons.mp hy with rfl | hy
          · exact hk
          · intro hsy
            exact (hout y hy) (List.mem_cons_of_mem _ hsy)

/-- On a list of trimmed, non-empty values with pairwise distinct keys
disjoint from `seen`, the normalizer loop is the identity. -/
theorem normalizeLoop_fixed (ys : List GoStr) :
    ∀ seen : List GoStr,
      (∀ y ∈ ys, goTrimSpace y = y ∧ y ≠ []) →
      (ys.map goToLower).Nodup →
      (∀ y ∈ ys, goToLower y ∉ seen) →
      normalizeLoop ys seen = ys := by
  induction ys with
  | nil => intro seen _ _ _; exact normalizeLoop_nil seen
  | cons y rest ih =>
    intro seen htrim hnd hseen
    obtain ⟨hty, hne⟩ := htrim y (List.mem_cons_self _ _)
    rw [normalizeLoop_cons, hty, if_neg hne,
      if_neg (hseen y (List.mem_cons_self _ _))]
    congr 1
    rw [List.map_cons, List.nodup_cons] at hnd
    refine ih _ (fun z hz => htrim z (List.mem_cons_of_mem _ hz)) hnd.2 ?_
    intro z hz
    rw [List.mem_cons]
    push_neg
    constructor
    · intro hzk
      exact hnd.1 (hzk ▸ List.mem_map_of_mem goToLower hz)
    · exact hseen z (List.mem_cons_of_mem _ hz)

theorem normalizeLoop_idem (values : List GoStr) :
    normalizeLoop (normalizeLoop values []) [] = normalizeLoop values [] :=
  normalizeLoop_fixed _ _ (normalizeLoop_mem_trimmed values [])
    (normalizeLoop_keys values []).1 (by simp)

theorem normalizeGoalValues_idem (values : GoSlice) :
    normalizeGoalValues (normalizeGoalValues values) = normalizeGoalValues values := by
  rw [normalizeGoalValues_eq values, normalizeGoalValues_eq, Option.getD_some,
    normalizeLoop_idem, ← normalizeGoalValues_eq]

theorem normalizeCollaborators_idem (values : GoSlice) :
    normalizeCollaborators (normalizeCollaborators values)
      = normalizeCollaborators values := by
  rw [normalizeCollaborators_eq values, normalizeCollaborators_eq, Option.getD_some,
    normalizeLoop_idem, ← normalizeCollaborators_eq]

/-! ## Entities, rows and JSON serialization

The repository layer for goals is embedded from the goals database file
(the variant whose schema has the `constraints` and `success_criteria`
tag-set columns), the repository layer for intents from
`backend/internal/database/intents.go`. -/

/-- `database.GoalInput`. -/
structure GoalInput where
  Title : GoStr
  ClarityStatement : GoStr
  Constraints : GoSlice
  SuccessCriteria : GoSlice

/-- `database.Goal`, the entity returned to callers. -/
structure Goal where
  ID : UUID
  Title : GoStr
  ClarityStatement : GoStr
  Constraints : GoSlice
  SuccessCriteria : GoSlice
  CreatedAt : Timestamp
  UpdatedAt : Timestamp
deriving DecidableEq

/-- One row of the `goals` table: the tag-set columns hold the raw JSON
text the repository wrote or the driver read back. -/
structure GoalRow where
  id : UUID
  title : GoStr
  clarity_statement : GoStr
  constraints : GoStr
  success_criteria : GoStr
  created_at : Timestamp
  updated_at : Timestamp
deriving DecidableEq

/-- `database.IntentInput`. -/
structure IntentInput where
  Statement : GoStr
  Context : GoStr
  ExpectedOutcome : GoStr
  Collaborators : GoSlice

/-- `database.Intent`. -/
structure Intent where
  ID : UUID
  Statement : GoStr
  Context : GoStr
  ExpectedOutcome : GoStr
  Collaborators : GoSlice
  CreatedAt : Timestamp
deriving DecidableEq

/-- One row of the `intents` table. -/
structure IntentRow where
  id : UUID
  statement : GoStr
  context : GoStr
  expected_outcome : GoStr
  collaborators : GoStr
  created_at : Timestamp
deriving DecidableEq

/-- JSON string escaping as performed by `encoding/json` for quotation
marks and backslashes (escapes of control characters and the HTML-unsafe
characters are not modelled; no theorem below depends on them). -/
def goEscapeJSON : GoStr → GoStr
  | [] => []
  | c :: cs =>
    if c = '"' ∨ c = '\\' then '\\' :: c :: goEscapeJSON cs
    else c :: goEscapeJSON cs

/-- `encoding/json` serialization of a single Go string. -/
def goMarshalString (s : GoStr) : GoStr :=
  '"' :: (goEscapeJSON s ++ ['"'])

/-- `encoding/json` serialization of a `[]string`: a nil slice encodes as
the JSON `null` value, a non-nil slice as a JSON array of strings (`[]`
when empty). -/
def goMarshalStringSlice : GoSlice → GoStr
  | none => "null".toList
  | some l => '[' :: (List.intercalate [','] (l.map goMarshalString) ++ [']'])

example : goMarshalStringSlice none = "null".toList := by decide
example : goMarshalStringSlice (some []) = "[]".toList := by decide
example : goMarshalStringSlice (some ["a".toList, "b".toList])
    = "[\"a\",\"b\"]".toList := by decide

/-- The row inserted by `CreateGoal`: both tag-set inputs are serialized
with `json.Marshal` exactly as passed (no normalization in the
repository), and `created_at` and `updated_at` both receive `now`. -/
def createGoalRow (input : GoalInput) (now : Timestamp) (id : UUID) : GoalRow :=
  { id := id
    title := input.Title
    clarity_statement := input.ClarityStatement
    constraints := goMarshalStringSlice input.Constraints
    success_criteria := goMarshalStringSlice input.SuccessCriteria
    created_at := now
    updated_at := now }

/-- The `Goal` value returned by `CreateGoal` on success. -/
def createGoalResult (input : GoalInput) (now : Timestamp) (id : UUID) : Goal :=
  { ID := id
    Title := input.Title
    ClarityStatement := input.ClarityStatement
    Constraints := input.Constraints
    SuccessCriteria := input.SuccessCriteria
    CreatedAt := now
    UpdatedAt := now }

/-- The row inserted by `CreateIntent` (`intents.go`): the collaborators
input is serialized with `json.Marshal` exactly as passed. -/
def createIntentRow (input : IntentInput) (now : Timestamp) (id : UUID) : IntentRow :=
  { id := id
    statement := input.Statement
    context := input.Context
    expected_outcome := input.ExpectedOutcome
    collaborators := goMarshalStringSlice input.Collaborators
    created_at := now }

/-- The `Intent` value returned by `CreateIntent` on success. -/
def createIntentResult (input : IntentInput) (now : Timestamp) (id : UUID) : Intent :=
  { ID := id
    Statement := input.Statement
    Context := input.Context
    ExpectedOutcome := input.ExpectedOutcome
    Collaborators := input.Collaborators
    CreatedAt := now }

/-- The effect of `UpdateGoal`'s UPDATE statement on the matched row: the
SET clause replaces `title`, `clarity_statement`, `constraints`,
`success_criteria` and `updated_at`; `id` and `created_at` are not among
the SET columns. -/
def updateGoalRow (row : GoalRow) (input : GoalInput) (now : Timestamp) : GoalRow :=
  { row with
    title := input.Title
    clarity_statement := input.ClarityStatement
    constraints := goMarshalStringSlice input.Constraints
    success_criteria := goMarshalStringSlice input.SuccessCriteria
    updated_at := now }

/-- `createIntentRequest`, the decoded JSON payload of the intents
handler; a tag-set field absent from the request body decodes to a nil
slice. -/
structure CreateIntentRequest where
  Statement : GoStr
  Context : GoStr
  ExpectedOutcome : GoStr
  Collaborators : GoSlice

/-- The `database.IntentInput` built by the intents handler's
`handleCreate` after validation: text fields are trimmed and the
collaborators are passed through `normalizeCollaborators`. -/
def intentInputOfRequest (payload : CreateIntentRequest) : IntentInput :=
  { Statement := goTrimSpace payload.Statement
    Context := goTrimSpace payload.Context
    ExpectedOutcome := goTrimSpace payload.ExpectedOutcome
    Collaborators := normalizeCollaborators payload.Collaborators }

/-! ## Errors, row scanning and the get/delete operations -/

/-- The error conditions surfaced by the repository layer:
`errNoRows` models `sql.ErrNoRows` (the driver's "zero rows matched"
signal), `connFailure` any connection/execution failure reported by the
driver, and `serializationFailure` an `encoding/json` unmarshalling error
for a stored tag-set column. -/
inductive DBError where
  | errNoRows
  | connFailure (msg : GoStr)
  | serializationFailure
deriving DecidableEq

/-- Whitespace skipped by the JSON scanner. -/
def jsonSkipWS (s : GoStr) : GoStr :=
  s.dropWhile fun c => c = ' ' ∨ c = '\t' ∨ c = '\n' ∨ c = '\r'

/-- Body of a JSON string after the opening quote; returns the decoded
characters and the remaining input after the closing quote. -/
def jsonStringBody : GoStr → Option (GoStr × GoStr)
  | [] => none
  | '"' :: rest => some ([], rest)
  | '\\' :: c :: rest =>
    (jsonStringBody rest).map fun r =>
      ((if c = 'n' then '\n' else if c = 't' then '\t'
        else if c = 'r' then '\r' else c) :: r.1, r.2)
  | ['\\'] => none
  | c :: rest => (jsonStringBody rest).map fun r => (c :: r.1, r.2)

/-- Elements of a JSON array of strings, after the opening bracket
(fuel-bounded recursion; the fuel is always the input length, which
bounds the number of elements). -/
def jsonArrayElems (fuel : Nat) (s : GoStr) (first : Bool) :
    Option (List GoStr × GoStr) :=
  match fuel with
  | 0 => none
  | fuel + 1 =>
    match jsonSkipWS s with
    | ']' :: rest => some ([], rest)
    | s' =>
      let s'' := if first then s' else
        match s' with
        | ',' :: rest => jsonSkipWS rest
        | _ => []
      match jsonSkipWS s'' with
      | '"' :: rest =>
        match jsonStringBody rest with
        | some (str, rem) =>
          (jsonArrayElems fuel rem false).map fun r => (str :: r.1, r.2)
        | none => none
      | _ => none

/-- `json.Unmarshal` of a byte slice into a `*[]string`, modelled as far
as the theorems need it: `none` is a parse failure; `some none` is the
JSON `null` value (which leaves the destination slice nil); `some (some l)`
is a successfully parsed array.  A non-conforming comma/quote structure
fails. -/
def goUnmarshalStringArray (data : GoStr) : Option GoSlice :=
  match jsonSkipWS data with
  | 'n' :: 'u' :: 'l' :: 'l' :: rest =>
    if jsonSkipWS rest = [] then some none else none
  | '[' :: rest =>
    match jsonArrayElems (rest.length + 1) rest true with
    | some (elems, rem) => if jsonSkipWS rem = [] then some (some elems) else none
    | none => none
  | _ => none

example : goUnmarshalStringArray "[]".toList = some (some []) := by decide
example : goUnmarshalStringArray "null".toList = some none := by decide
example : goUnmarshalStringArray "[\"a\", \"b\"]".toList
    = some (some ["a".toList, "b".toList]) := by decide
example : goUnmarshalStringArray "not json".toList = none := by decide

/-- The tag-column read-back step repeated in `GetGoal`, `UpdateGoal` and
`ListGoals`: when the raw column value is non-empty it is unmarshalled
(propagating an unmarshalling failure), and when it is empty the
unmarshal is skipped and the field stays a nil slice. -/
def decodeTagColumn (raw : GoStr) : Except DBError GoSlice :=
  if 0 < raw.length then
    match goUnmarshalStringArray raw with
    | some v => .ok v
    | none => .error .serializationFailure
  else
    .ok none

/-- Scanning one `goals` row into a `Goal` entity, shared by `GetGoal`,
`UpdateGoal` and `ListGoals`. -/
def scanGoalRow (row : GoalRow) : Except DBError Goal :=
  match decodeTagColumn row.constraints with
  | .error e => .error e
  | .ok cs =>
    match decodeTagColumn row.success_criteria with
    | .error e => .error e
    | .ok sc =>
      .ok { ID := row.id
            Title := row.title
            ClarityStatement := row.clarity_statement
            Constraints := cs
            SuccessCriteria := sc
            CreatedAt := row.created_at
            UpdatedAt := row.updated_at }

/-- `GetGoal`: a driver error from the single-row query (including
`sql.ErrNoRows` when zero rows match) is returned unchanged; otherwise
the row is scanned. -/
def getGoal (queryResult : Except DBError GoalRow) : Except DBError Goal :=
  match queryResult with
  | .error e => .error e
  | .ok row => scanGoalRow row

/-- `UpdateGoal`'s handling of the RETURNING row: identical propagation
and scanning. -/
def updateGoalReturning (queryResult : Except DBError GoalRow) : Except DBError Goal :=
  match queryResult with
  | .error e => .error e
  | .ok row => scanGoalRow row

/-- The row loop of `ListGoals`: rows are scanned in order and the first
failure aborts the listing. -/
def listGoalsDecode : List GoalRow → Except DBError (List Goal)
  | [] => .ok []
  | row :: rest =>
    match scanGoalRow row with
    | .error e => .error e
    | .ok g =>
      match listGoalsDecode rest with
      | .error e => .error e
      | .ok gs => .ok (g :: gs)

/-- The contents of the `goals` table, for the semantics of DELETE. -/
abbrev GoalTable := List GoalRow

/-- The effect of `DELETE FROM goals WHERE id = $1`: the new table
contents and the number of rows affected. -/
def deleteExec (table : GoalTable) (id : UUID) : GoalTable × Nat :=
  (table.filter fun r => decide (r.id ≠ id),
   (table.filter fun r => decide (r.id = id)).length)

/-- `DeleteGoal`: runs the DELETE and returns `sql.ErrNoRows` exactly
when the reported affected-row count is zero. -/
def deleteGoal (table : GoalTable) (id : UUID) : GoalTable × Except DBError Unit :=
  ((deleteExec table id).1,
   if (deleteExec table id).2 = 0 then .error .errNoRows else .ok ())

/-- `DeleteGoal`'s result handling at the driver boundary: an execution
error propagates unchanged, and an affected count of zero becomes
`sql.ErrNoRows`. -/
def deleteGoalFromExec (execResult : Except DBError Nat) : Except DBError Unit :=
  match execResult with
  | .error e => .error e
  | .ok affected => if affected = 0 then .error .errNoRows else .ok ()

/-! ## The dynamic SQL built by ListGoals -/

/-- `database.GoalFilters`. -/
structure GoalFilters where
  Query : GoStr
  CreatedAfter : Option Timestamp
  CreatedBefore : Option Timestamp

/-- Modelled from the spec: the `database.Pagination` struct definition is
not among the provided sources (only its uses are); per spec §6 it is "a
typed pagination value (positive limit, non-negative offset)", and
`ListGoals` reads fields `Limit` and `Offset`, each compared with `> 0`,
so both are machine integers. -/
structure Pagination where
  Limit : Int
  Offset : Int

/-- A value bound to a positional SQL parameter. -/
inductive SQLArg where
  | str (s : GoStr)
  | time (t : Timestamp)
  | int (n : Int)
deriving DecidableEq

/-- The text `$n` referencing positional parameter `n`. -/
def paramRef (n : Nat) : GoStr :=
  '$' :: (Nat.repr n).toList

/-- The substring-search predicate group of `ListGoals`, with its three
parameter numbers, as produced by `fmt.Sprintf`. -/
def searchCondition (p : Nat) : GoStr :=
  "(title ILIKE ".toList ++ paramRef p
    ++ " OR clarity_statement ILIKE ".toList ++ paramRef (p + 1)
    ++ " OR success_criteria::text ILIKE ".toList ++ paramRef (p + 2) ++ [')']

/-- The builder's mutable state in `ListGoals`: the predicate fragments,
the bound arguments and the next free parameter number. -/
structure BuilderState where
  conditions : List GoStr
  args : List SQLArg
  param : Nat
deriving DecidableEq

/-- First `if` of `ListGoals`: a non-blank search term contributes one
OR-group over three columns, binds the `%`-wrapped term three times and
advances the parameter counter by 3.  The wrapped pattern is
`"%" + filters.Query + "%"` (the unmodified term between the markers). -/
def addSearch (filters : GoalFilters) (st : BuilderState) : BuilderState :=
  if goTrimSpace filters.Query ≠ [] then
    { conditions := st.conditions ++ [searchCondition st.param]
      args :=
        st.args ++ [.str ('%' :: (filters.Query ++ ['%'])),
          .str ('%' :: (filters.Query ++ ['%'])),
          .str ('%' :: (filters.Query ++ ['%']))]
      param := st.param + 3 }
  else st

/-- Second `if` of `ListGoals`: the `created_at >= $n` predicate. -/
def addCreatedAfter (filters : GoalFilters) (st : BuilderState) : BuilderState :=
  match filters.CreatedAfter with
  | some t =>
    { conditions := st.conditions ++ ["created_at >= ".toList ++ paramRef st.param]
      args := st.args ++ [.time t]
      param := st.param + 1 }
  | none => st

/-- Third `if` of `ListGoals`: the `created_at <= $n` predicate. -/
def addCreatedBefore (filters : GoalFilters) (st : BuilderState) : BuilderState :=
  match filters.CreatedBefore with
  | some t =>
    { conditions := st.conditions ++ ["created_at <= ".toList ++ paramRef st.param]
      args := st.args ++ [.time t]
      param := st.param + 1 }
  | none => st

/-- The builder state after the three filter steps of `ListGoals`,
starting from no conditions, no arguments and parameter number 1. -/
def goalFilterState (filters : GoalFilters) : BuilderState :=
  addCreatedBefore filters
    (addCreatedAfter filters
      (addSearch filters { conditions := [], args := [], param := 1 }))

/-- The WHERE clause: empty when there are no conditions, otherwise
`" WHERE "` followed by the conditions joined with `" AND "`. -/
def whereClause (conditions : List GoStr) : GoStr :=
  if conditions = [] then []
  else " WHERE ".toList ++ List.intercalate " AND ".toList conditions

/-- The COUNT query text of `ListGoals`. -/
def goalCountQuery (filters : GoalFilters) : GoStr :=
  "SELECT COUNT(*) FROM goals".toList
    ++ whereClause (goalFilterState filters).conditions

/-- The arguments bound to the COUNT query. -/
def goalCountArgs (filters : GoalFilters) : List SQLArg :=
  (goalFilterState filters).args

/-- The page query before pagination: same WHERE clause, plus the fixed
ORDER BY clause. -/
def goalListQueryBase (filters : GoalFilters) : GoStr :=
  ("SELECT id, title, clarity_statement, constraints, success_criteria,"
      ++ " created_at, updated_at FROM goals").toList
    ++ whereClause (goalFilterState filters).conditions
    ++ " ORDER BY created_at DESC".toList

/-- The page query text of `ListGoals`: `LIMIT` is appended only when
`pagination.Limit > 0` (consuming the next parameter number), then
`OFFSET` only when `pagination.Offset > 0`. -/
def goalListQuery (filters : GoalFilters) (pagination : Pagination) : GoStr :=
  let st := goalFilterState filters
  let q1 := if 0 < pagination.Limit then
      goalListQueryBase filters ++ " LIMIT ".toList ++ paramRef st.param
    else goalListQueryBase filters
  let p1 := if 0 < pagination.Limit then st.param + 1 else st.param
  if 0 < pagination.Offset then q1 ++ " OFFSET ".toList ++ paramRef p1 else q1

/-- The arguments bound to the page query: the filter arguments, then the
limit and offset values when present. -/
def goalListArgs (filters : GoalFilters) (pagination : Pagination) : List SQLArg :=
  let st := goalFilterState filters
  let a1 := if 0 < pagination.Limit then st.args ++ [.int pagination.Limit]
    else st.args
  if 0 < pagination.Offset then a1 ++ [.int pagination.Offset] else a1

/-- Scanner for positional parameter references: `acc` carries the value
of the digit run currently being read after a `$`. -/
def paramScan : GoStr → Option Nat → List Nat
  | [], none => []
  | [], some n => [n]
  | c :: rest, none =>
    if c = '$' then paramScan rest (some 0) else paramScan rest none
  | c :: rest, some n =>
    if c.isDigit then paramScan rest (some (n * 10 + (c.toNat - 48)))
    else n :: (if c = '$' then paramScan rest (some 0) else paramScan rest none)

/-- The positional parameter numbers occurring in a SQL text, in order:
every `$` introduces a parameter reference given by the maximal digit run
that follows it. -/
def paramNumbersIn (s : GoStr) : List Nat :=
  paramScan s none

example : paramNumbersIn "(a ILIKE $1 OR b ILIKE $2) AND c >= $3".toList
    = [1, 2, 3] := by decide

/-- `pat` is a prefix of `s`. -/
def prefixMatch : GoStr → GoStr → Bool
  | [], _ => true
  | _ :: _, [] => false
  | a :: as, b :: bs => decide (a = b) && prefixMatch as bs

/-- `pat` occurs as a contiguous substring of `s`. -/
def hasSub (pat : GoStr) : GoStr → Bool
  | [] => prefixMatch pat []
  | c :: rest => prefixMatch pat (c :: rest) || hasSub pat rest

example : hasSub "LIMIT".toList "SELECT x LIMIT $1".toList = true := by decide
example : hasSub "OFFSET".toList "SELECT x LIMIT $1".toList = false := by decide

/-! ## Characterization of the builder state per filter shape -/

theorem gfs_blank_none_none (q : GoStr) (hq : goTrimSpace q = []) :
    goalFilterState ⟨q, none, none⟩ = ⟨[], [], 1⟩ := by
  simp [goalFilterState, addSearch, addCreatedAfter, addCreatedBefore, hq]

theorem gfs_blank_after_none (q : GoStr) (hq : goTrimSpace q = []) (ta : Timestamp) :
    goalFilterState ⟨q, some ta, none⟩
      = ⟨["created_at >= ".toList ++ paramRef 1], [.time ta], 2⟩ := by
  simp [goalFilterState, addSearch, addCreatedAfter, addCreatedBefore, hq]

theorem gfs_blank_none_before (q : GoStr) (hq : goTrimSpace q = []) (tb : Timestamp) :
    goalFilterState ⟨q, none, some tb⟩
      = ⟨["created_at <= ".toList ++ paramRef 1], [.time tb], 2⟩ := by
  simp [goalFilterState, addSearch, addCreatedAfter, addCreatedBefore, hq]

theorem gfs_blank_after_before (q : GoStr) (hq : goTrimSpace q = [])
    (ta tb : Timestamp) :
    goalFilterState ⟨q, some ta, some tb⟩
      = ⟨["created_at >= ".toList ++ paramRef 1,
          "created_at <= ".toList ++ paramRef 2],
         [.time ta, .time tb], 3⟩ := by
  simp [goalFilterState, addSearch, addCreatedAfter, addCreatedBefore, hq]

theorem gfs_search_none_none (q : GoStr) (hq : ¬goTrimSpace q = []) :
    goalFilterState ⟨q, none, none⟩
      = ⟨[searchCondition 1],
         [.str ('%' :: (q ++ ['%'])), .str ('%' :: (q ++ ['%'])),
          .str ('%' :: (q ++ ['%']))], 4⟩ := by
  simp [goalFilterState, addSearch, addCreatedAfter, addCreatedBefore, hq]

theorem gfs_search_after_none (q : GoStr) (hq : ¬goTrimSpace q = [])
    (ta : Timestamp) :
    goalFilterState ⟨q, some ta, none⟩
      = ⟨[searchCondition 1, "created_at >= ".toList ++ paramRef 4],
         [.str ('%' :: (q ++ ['%'])), .str ('%' :: (q ++ ['%'])),
          .str ('%' :: (q ++ ['%'])), .time ta], 5⟩ := by
  simp [goalFilterState, addSearch, addCreatedAfter, addCreatedBefore, hq]

theorem gfs_search_none_before (q : GoStr) (hq : ¬goTrimSpace q = [])
    (tb : Timestamp) :
    goalFilterState ⟨q, none, some tb⟩
      = ⟨[searchCondition 1, "created_at <= ".toList ++ paramRef 4],
         [.str ('%' :: (q ++ ['%'])), .str ('%' :: (q ++ ['%'])),
          .str ('%' :: (q ++ ['%'])), .time tb], 5⟩ := by
  simp [goalFilterState, addSearch, addCreatedAfter, addCreatedBefore, hq]

theorem gfs_search_after_before (q : GoStr) (hq : ¬goTrimSpace q = [])
    (ta tb : Timestamp) :
    goalFilterState ⟨q, some ta, some tb⟩
      = ⟨[searchCondition 1, "created_at >= ".toList ++ paramRef 4,
          "created_at <= ".toList ++ paramRef 5],
         [.str ('%' :: (q ++ ['%'])), .str ('%' :: (q ++ ['%'])),
          .str ('%' :: (q ++ ['%'])), .time ta, .time tb], 6⟩ := by
  simp [goalFilterState, addSearch, addCreatedAfter, addCreatedBefore, hq]

theorem goalListArgs_split (filters : GoalFilters) (pagination : Pagination) :
    goalListArgs filters pagination
      = goalCountArgs filters
        ++ (if 0 < pagination.Limit then [SQLArg.int pagination.Limit] else [])
        ++ (if 0 < pagination.Offset then [SQLArg.int pagination.Offset] else []) := by
  unfold goalListArgs goalCountArgs
  by_cases hl : 0 < pagination.Limit <;> by_cases ho : 0 < pagination.Offset <;>
    simp [hl, ho]

theorem goalListQuery_split (filters : GoalFilters) (pagination : Pagination) :
    goalListQuery filters pagination
      = goalListQueryBase filters
        ++ (if 0 < pagination.Limit then
            " LIMIT ".toList ++ paramRef (goalFilterState filters).param else [])
        ++ (if 0 < pagination.Offset then
            " OFFSET ".toList
              ++ paramRef ((goalFilterState filters).param
                + if 0 < pagination.Limit then 1 else 0) else []) := by
  unfold goalListQuery
  by_cases hl : 0 < pagination.Limit <;> by_cases ho : 0 < pagination.Offset <;>
    simp [hl, ho, List.append_assoc]

theorem goalFilterState_param (filters : GoalFilters) :
    (goalFilterState filters).param = 1 + (goalFilterState filters).args.length := by
  obtain ⟨q, ca, cb⟩ := filters
  rcases ca with _ | ta <;> rcases cb with _ | tb <;>
    by_cases hq : goTrimSpace q = [] <;>
      simp [gfs_blank_none_none, gfs_blank_after_none, gfs_blank_none_before,
        gfs_blank_after_before, gfs_search_none_none, gfs_search_after_none,
        gfs_search_none_before, gfs_search_after_before, hq]

theorem paramNumbersIn_goalCountQuery (filters : GoalFilters) :
    paramNumbersIn (goalCountQuery filters)
      = List.range' 1 (goalCountArgs filters).length := by
  obtain ⟨q, ca, cb⟩ := filters
  rcases ca with _ | ta <;> rcases cb with _ | tb <;>
    by_cases hq : goTrimSpace q = [] <;>
      simp only [goalCountQuery, goalCountArgs,
        gfs_blank_none_none, gfs_blank_after_none, gfs_blank_none_before,
        gfs_blank_after_before, gfs_search_none_none, gfs_search_after_none,
        gfs_search_none_before, gfs_search_after_before, hq, not_false_iff,
        ne_eq, not_true_eq_false, not_false_eq_true,
        List.length_append, List.length_cons, List.length_nil] <;>
      decide

theorem paramNumbersIn_goalListQuery (filters : GoalFilters) (pagination : Pagination) :
    paramNumbersIn (goalListQuery filters pagination)
      = List.range' 1 (goalListArgs filters pagination).length := by
  obtain ⟨q, ca, cb⟩ := filters
  rcases ca with _ | ta <;> rcases cb with _ | tb <;>
    by_cases hq : goTrimSpace q = [] <;>
      by_cases hl : 0 < pagination.Limit <;>
        by_cases ho : 0 < pagination.Offset <;>
          simp only [goalListQuery, goalListQueryBase, goalListArgs,
            gfs_blank_none_none, gfs_blank_after_none, gfs_blank_none_before,
            gfs_blank_after_before, gfs_search_none_none, gfs_search_after_none,
            gfs_search_none_before, gfs_search_after_before, hq, hl, ho,
            if_true, if_false, iff_true, iff_false, ite_true, ite_false,
            eq_self_iff_true, not_true_eq_false, not_false_eq_true,
            List.length_append, List.length_cons, List.length_nil] <;>
          decide

theorem goalQueries_no_filters (q : GoStr) (hq : goTrimSpace q = [])
    (pagination : Pagination) :
    goalCountQuery ⟨q, none, none⟩ = "SELECT COUNT(*) FROM goals".toList
    ∧ hasSub " WHERE ".toList (goalCountQuery ⟨q, none, none⟩) = false
    ∧ hasSub " WHERE ".toList (goalListQuery ⟨q, none, none⟩ pagination) = false := by
  refine ⟨?_, ?_, ?_⟩ <;>
    first
    | (simp only [goalCountQuery, gfs_blank_none_none q hq]; decide)
    | (by_cases hl : 0 < pagination.Limit <;>
        by_cases ho : 0 < pagination.Offset <;>
          simp only [goalListQuery, goalListQueryBase,
            gfs_blank_none_none q hq, hl, ho, if_true, if_false,
            ite_true, ite_false] <;>
          decide)

/-! ## Claim theorems -/

/-- C6: the List-Value Normalizer (`normalizeGoalValues`,
`normalizeCollaborators`) returns the sequence obtained by trimming
whitespace from each element, dropping elements that become empty, and
keeping only the first occurrence among elements whose trimmed values are
equal under case-insensitive comparison, preserving first-seen casing and
relative order (`specNormalize`); for an empty (or nil) input it returns
the empty list. -/
theorem normalizer_trims_dedups_preserving_order :
    (∀ values : GoSlice,
        normalizeGoalValues values = some (specNormalize (values.getD [])))
      ∧ (∀ values : GoSlice,
        normalizeCollaborators values = some (specNormalize (values.getD [])))
      ∧ normalizeGoalValues none = some []
      ∧ normalizeCollaborators (some []) = some [] := by
  refine ⟨fun v => ?_, fun v => ?_, rfl, rfl⟩
  · rw [normalizeGoalValues_eq, normalizeLoop_eq_specNormalize]
  · rw [normalizeCollaborators_eq, normalizeLoop_eq_specNormalize]

/-- C7: the List-Value Normalizer is idempotent — normalizing an
already-normalized sequence returns it unchanged — and
`normalize(["Jamie", "JAMIE", " Ana "]) = ["Jamie", "Ana"]`. -/
theorem normalizer_idempotent :
    (∀ values : GoSlice,
        normalizeGoalValues (normalizeGoalValues values)
          = normalizeGoalValues values)
      ∧ (∀ values : GoSlice,
        normalizeCollaborators (normalizeCollaborators values)
          = normalizeCollaborators values)
      ∧ normalizeGoalValues
          (some ["Jamie".toList, "JAMIE".toList, " Ana ".toList])
        = some ["Jamie".toList, "Ana".toList] := by
  exact ⟨normalizeGoalValues_idem, normalizeCollaborators_idem, by decide⟩

/-- C1 counterexample: `CreateGoal` and `CreateIntent` do not normalize
their tag-set inputs — with the unnormalized caller input
`[" Ana ", "ana"]` the entity they persist and return carries the input
verbatim, which differs from the List-Value Normalizer's output. -/
theorem createGoal_does_not_normalize_cex :
    (createGoalResult
        { Title := "t".toList, ClarityStatement := "c".toList
          Constraints := some [" Ana ".toList, "ana".toList]
          SuccessCriteria := some [] } 0 0).Constraints
      ≠ normalizeGoalValues (some [" Ana ".toList, "ana".toList])
    ∧ (createIntentResult
        { Statement := "s".toList, Context := "c".toList
          ExpectedOutcome := "e".toList
          Collaborators := some [" Ana ".toList, "ana".toList] } 0 0).Collaborators
      ≠ normalizeCollaborators (some [" Ana ".toList, "ana".toList]) := by
  constructor <;> decide

/-- C1 amended: the repository create operations serialize and persist
their tag-set inputs verbatim, without invoking the List-Value
Normalizer; normalization is performed by the HTTP handlers before they
call the repository, so an entity created through the handler path (here
the intents handler, whose repository counterpart is `CreateIntent`)
carries tag-set fields that are fixed points of the normalizer. -/
theorem create_normalization_happens_in_handlers :
    (∀ (input : GoalInput) (now : Timestamp) (id : UUID),
        (createGoalResult input now id).Constraints = input.Constraints
          ∧ (createGoalResult input now id).SuccessCriteria = input.SuccessCriteria
          ∧ (createGoalRow input now id).constraints
              = goMarshalStringSlice input.Constraints
          ∧ (createGoalRow input now id).success_criteria
              = goMarshalStringSlice input.SuccessCriteria)
      ∧ (∀ (payload : CreateIntentRequest) (now : Timestamp) (id : UUID),
        (createIntentResult (intentInputOfRequest payload) now id).Collaborators
            = normalizeCollaborators payload.Collaborators
          ∧ normalizeCollaborators
              ((createIntentResult (intentInputOfRequest payload) now id).Collaborators)
            = (createIntentResult (intentInputOfRequest payload) now id).Collaborators) := by
  refine ⟨fun input now id => ⟨rfl, rfl, rfl, rfl⟩, fun payload now id => ⟨rfl, ?_⟩⟩
  exact normalizeCollaborators_idem payload.Collaborators

/-- C2 counterexample: a nil tag-set slice passed to the repository
create operations is serialized with `json.Marshal` to the JSON text
`null` — not `[]` — and that is what the inserted row stores. -/
theorem nil_slice_marshals_null_cex :
    (createGoalRow
        { Title := "t".toList, ClarityStatement := "c".toList
          Constraints := none, SuccessCriteria := none } 0 0).constraints
      = "null".toList
    ∧ (createIntentRow
        { Statement := "s".toList, Context := "c".toList
          ExpectedOutcome := "e".toList, Collaborators := none } 0 0).collaborators
      = "null".toList
    ∧ "null".toList ≠ "[]".toList := by
  refine ⟨rfl, rfl, by decide⟩

/-- C2 amended: a non-nil tag-set slice is persisted as a JSON array of
strings (`[]` when empty), while a nil slice at the repository boundary is
persisted as JSON `null`; the handler-normalized inputs are always
non-nil, so a create or update that flows through the handlers never
stores `null` and stores `[]` for an empty or absent tag set. -/
theorem tagset_array_serialization_amended :
    goMarshalStringSlice (some []) = "[]".toList
    ∧ goMarshalStringSlice none = "null".toList
    ∧ goMarshalStringSlice (normalizeGoalValues none) = "[]".toList
    ∧ goMarshalStringSlice (normalizeGoalValues (some [])) = "[]".toList
    ∧ goMarshalStringSlice (normalizeCollaborators none) = "[]".toList
    ∧ (∀ values : GoSlice,
        goMarshalStringSlice (normalizeGoalValues values) ≠ "null".toList)
    ∧ (∀ values : GoSlice,
        goMarshalStringSlice (normalizeCollaborators values) ≠ "null".toList)
    ∧ (∀ (input : IntentInput) (now : Timestamp) (id : UUID),
        (createIntentRow input now id).collaborators
          = goMarshalStringSlice input.Collaborators)
    ∧ (∀ (input : GoalInput) (now : Timestamp) (id : UUID),
        (createGoalRow input now id).constraints
            = goMarshalStringSlice input.Constraints
          ∧ (updateGoalRow
              { id := id, title := [], clarity_statement := [], constraints := []
                success_criteria := [], created_at := now, updated_at := now }
              input now).constraints
            = goMarshalStringSlice input.Constraints) := by
  refine ⟨by decide, by decide, by decide, by decide, by decide, fun v => ?_,
    fun v => ?_, fun input now id => rfl, fun input now id => ⟨rfl, rfl⟩⟩
  · rw [normalizeGoalValues_eq]
    intro h
    have h0 := congrArg List.head? h
    simp [goMarshalStringSlice] at h0
  · rw [normalizeCollaborators_eq]
    intro h
    have h0 := congrArg List.head? h
    simp [goMarshalStringSlice] at h0

/-- C9: `CreateGoal` persists and returns a goal whose last-modified
timestamp equals its creation timestamp, and `UpdateGoal` stamps the new
last-modified timestamp while leaving the identifier and creation
timestamp of the row untouched (they are not among the SET columns). -/
theorem goal_timestamp_lifecycle :
    (∀ (input : GoalInput) (now : Timestamp) (id : UUID),
        (createGoalResult input now id).UpdatedAt
            = (createGoalResult input now id).CreatedAt
          ∧ (createGoalRow input now id).updated_at
            = (createGoalRow input now id).created_at)
      ∧ (∀ (row : GoalRow) (input : GoalInput) (now : Timestamp),
        (updateGoalRow row input now).updated_at = now
          ∧ (updateGoalRow row input now).id = row.id
          ∧ (updateGoalRow row input now).created_at = row.created_at) :=
  ⟨fun _ _ _ => ⟨rfl, rfl⟩, fun _ _ _ => ⟨rfl, rfl, rfl⟩⟩

/-- C5: an operation targeting one identifier fails with `sql.ErrNoRows`
exactly when zero rows match, distinguished from a connection failure:
`GetGoal` propagates the driver's error unchanged, `DeleteGoal` returns
`sql.ErrNoRows` if and only if the DELETE affected zero rows, and a
delete followed by a delete of the same identifier has the first call
succeed and the second return the NotFound condition. -/
theorem notfound_delete_get_semantics :
    (∀ e : DBError, getGoal (.error e) = .error e)
      ∧ (∀ msg : GoStr, DBError.errNoRows ≠ DBError.connFailure msg)
      ∧ (∀ e : DBError, deleteGoalFromExec (.error e) = .error e)
      ∧ (∀ affected : Nat,
        deleteGoalFromExec (.ok affected) = .error .errNoRows ↔ affected = 0)
      ∧ (∀ (table : GoalTable) (id : UUID),
        (deleteGoal table id).2 = .error .errNoRows ↔ (deleteExec table id).2 = 0)
      ∧ (∀ (table : GoalTable) (id : UUID),
        (∃ r ∈ table, r.id = id) →
          (deleteGoal table id).2 = .ok ()
            ∧ (deleteGoal (deleteGoal table id).1 id).2 = .error .errNoRows) := by
  refine ⟨fun e => rfl, fun msg h => DBError.noConfusion h, fun e => rfl,
    fun affected => ?_, fun table id => ?_, fun table id h => ?_⟩
  · by_cases h : affected = 0 <;> simp [deleteGoalFromExec, h]
  · by_cases h : (deleteExec table id).2 = 0 <;> simp [deleteGoal, h]
  · obtain ⟨r, hr, hrid⟩ := h
    have hmem : r ∈ table.filter fun r => decide (r.id = id) :=
      List.mem_filter.mpr ⟨hr, by simp [hrid]⟩
    have h1 : (deleteExec table id).2 ≠ 0 := by
      simp only [deleteExec]
      intro hlen
      rw [List.length_eq_zero] at hlen
      rw [hlen] at hmem
      exact List.not_mem_nil r hmem
    have h2 : (deleteExec (deleteExec table id).1 id).2 = 0 := by
      simp only [deleteExec, List.filter_filter]
      rw [List.length_eq_zero]
      apply List.filter_eq_nil_iff.mpr
      intro a _
      simp
    exact ⟨by simp [deleteGoal, h1], by simp [deleteGoal, h2]⟩

/-- A concrete one-row table used by witnesses. -/
def sampleGoalRow : GoalRow :=
  { id := 7
    title := "Goal".toList
    clarity_statement := "Clarity".toList
    constraints := "[]".toList
    success_criteria := "[]".toList
    created_at := 0
    updated_at := 0 }

/-- C5 witness: on a one-row table the first delete of its identifier
succeeds and the second returns the NotFound condition. -/
theorem notfound_delete_get_semantics_witness :
    (deleteGoal [sampleGoalRow] 7).2 = .ok ()
    ∧ (deleteGoal (deleteGoal [sampleGoalRow] 7).1 7).2 = .error .errNoRows :=
  notfound_delete_get_semantics.2.2.2.2.2 [sampleGoalRow] 7
    ⟨sampleGoalRow, List.mem_singleton.mpr rfl, rfl⟩

/-- C10: when a stored tag-set column read back by `GetGoal`,
`UpdateGoal` or `ListGoals` is empty, unmarshalling is skipped and the
field is left a nil slice with no error; a serialization failure can only
arise from a non-empty stored value that fails to parse as a JSON string
array. -/
theorem empty_tag_column_skips_unmarshal :
    (∀ raw : GoStr, raw = [] → decodeTagColumn raw = .ok none)
      ∧ (∀ (raw : GoStr) (e : DBError), decodeTagColumn raw = .error e →
        raw ≠ [] ∧ e = .serializationFailure ∧ goUnmarshalStringArray raw = none)
      ∧ (∀ row : GoalRow, row.constraints = [] → row.success_criteria = [] →
        scanGoalRow row
          = .ok { ID := row.id, Title := row.title
                  ClarityStatement := row.clarity_statement
                  Constraints := none, SuccessCriteria := none
                  CreatedAt := row.created_at, UpdatedAt := row.updated_at })
      ∧ (∀ row : GoalRow, getGoal (.ok row) = scanGoalRow row
          ∧ updateGoalReturning (.ok row) = scanGoalRow row
          ∧ listGoalsDecode [row]
            = (match scanGoalRow row with
              | .ok g => .ok [g]
              | .error e => .error e)) := by
  refine ⟨fun raw h => by simp [h, decodeTagColumn], fun raw e h => ?_,
    fun row h1 h2 => by simp [scanGoalRow, h1, h2, decodeTagColumn],
    fun row => ⟨rfl, rfl, ?_⟩⟩
  · unfold decodeTagColumn at h
    by_cases hl : 0 < raw.length
    · rw [if_pos hl] at h
      cases hu : goUnmarshalStringArray raw with
      | some v => rw [hu] at h; exact absurd h (by simp)
      | none =>
        rw [hu] at h
        refine ⟨?_, ?_, rfl⟩
        · intro hnil
          rw [hnil] at hl
          simp at hl
        · cases h
          rfl
    · rw [if_neg hl] at h
      exact absurd h (by simp)
  · simp only [listGoalsDecode]
    cases scanGoalRow row <;> rfl

/-- C10 witness: an empty column decodes to a nil field without error,
and a non-empty column that is not a JSON string array is the only way to
produce the serialization failure. -/
theorem empty_tag_column_skips_unmarshal_witness :
    decodeTagColumn [] = .ok none
    ∧ ("x".toList ≠ [] ∧ DBError.serializationFailure = .serializationFailure
        ∧ goUnmarshalStringArray "x".toList = none)
    ∧ scanGoalRow
        { id := 1, title := [], clarity_statement := [], constraints := []
          success_criteria := [], created_at := 0, updated_at := 0 }
      = .ok { ID := 1, Title := [], ClarityStatement := [], Constraints := none
              SuccessCriteria := none, CreatedAt := 0, UpdatedAt := 0 } :=
  ⟨empty_tag_column_skips_unmarshal.1 [] rfl,
   empty_tag_column_skips_unmarshal.2.1 "x".toList .serializationFailure rfl,
   empty_tag_column_skips_unmarshal.2.2.1 _ rfl rfl⟩

/-- C3: `ListGoals` builds the COUNT query and the page query from the
one builder invocation: the page query repeats the COUNT query's WHERE
text verbatim, the page arguments extend the COUNT arguments with the
pagination values, positional parameter numbers are contiguous starting
at `$1` in both queries, pagination parameters continue the numbering
after the filter parameters without collision, and with no filter
criteria no WHERE clause is emitted in either query. -/
theorem listGoals_shared_predicates_contiguous_params
    (filters : GoalFilters) (pagination : Pagination) :
    goalCountQuery filters
        = "SELECT COUNT(*) FROM goals".toList
          ++ whereClause (goalFilterState filters).conditions
    ∧ goalListQueryBase filters
        = ("SELECT id, title, clarity_statement, constraints, success_criteria,"
              ++ " created_at, updated_at FROM goals").toList
          ++ (goalCountQuery filters).drop "SELECT COUNT(*) FROM goals".toList.length
          ++ " ORDER BY created_at DESC".toList
    ∧ goalListQuery filters pagination
        = goalListQueryBase filters
          ++ (if 0 < pagination.Limit then
              " LIMIT ".toList ++ paramRef (1 + (goalCountArgs filters).length)
            else [])
          ++ (if 0 < pagination.Offset then
              " OFFSET ".toList
                ++ paramRef (1 + (goalCountArgs filters).length
                    + if 0 < pagination.Limit then 1 else 0)
            else [])
    ∧ goalListArgs filters pagination
        = goalCountArgs filters
          ++ (if 0 < pagination.Limit then [SQLArg.int pagination.Limit] else [])
          ++ (if 0 < pagination.Offset then [SQLArg.int pagination.Offset] else [])
    ∧ paramNumbersIn (goalCountQuery filters)
        = List.range' 1 (goalCountArgs filters).length
    ∧ paramNumbersIn (goalListQuery filters pagination)
        = List.range' 1 (goalListArgs filters pagination).length
    ∧ (goTrimSpace filters.Query = [] → filters.CreatedAfter = none →
        filters.CreatedBefore = none →
        goalCountQuery filters = "SELECT COUNT(*) FROM goals".toList
          ∧ hasSub " WHERE ".toList (goalCountQuery filters) = false
          ∧ hasSub " WHERE ".toList (goalListQuery filters pagination) = false) := by
  refine ⟨rfl, ?_, ?_, goalListArgs_split filters pagination,
    paramNumbersIn_goalCountQuery filters,
    paramNumbersIn_goalListQuery filters pagination, ?_⟩
  · unfold goalCountQuery goalListQueryBase
    rw [List.drop_left]
  · rw [goalListQuery_split, goalFilterState_param]
    simp only [goalCountArgs]
  · intro h1 h2 h3
    obtain ⟨q, ca, cb⟩ := filters
    cases ca with
    | some t => exact absurd h2 (by simp)
    | none =>
      cases cb with
      | some t => exact absurd h3 (by simp)
      | none => exact goalQueries_no_filters q h1 pagination

/-- C3 witness: with a whitespace-only search term and no timestamps,
neither query contains a WHERE clause. -/
theorem listGoals_shared_predicates_witness :
    goalCountQuery ⟨" ".toList, none, none⟩ = "SELECT COUNT(*) FROM goals".toList
    ∧ hasSub " WHERE ".toList (goalCountQuery ⟨" ".toList, none, none⟩) = false
    ∧ hasSub " WHERE ".toList (goalListQuery ⟨" ".toList, none, none⟩ ⟨5, 5⟩) = false :=
  (listGoals_shared_predicates_contiguous_params
    ⟨" ".toList, none, none⟩ ⟨5, 5⟩).2.2.2.2.2.2 (by decide) rfl rfl

set_option maxRecDepth 4000 in
/-- C4: the page query of `ListGoals` always carries
`ORDER BY created_at DESC`, carries a LIMIT clause exactly when
`pagination.Limit > 0` (zero or negative limit means unbounded, LIMIT is
omitted), and carries an OFFSET clause exactly when
`pagination.Offset > 0` (a zero offset is omitted entirely). -/
theorem listGoals_order_limit_offset (filters : GoalFilters) (pagination : Pagination) :
    hasSub " ORDER BY created_at DESC".toList (goalListQuery filters pagination) = true
    ∧ (hasSub " LIMIT ".toList (goalListQuery filters pagination) = true
        ↔ 0 < pagination.Limit)
    ∧ (hasSub " OFFSET ".toList (goalListQuery filters pagination) = true
        ↔ 0 < pagination.Offset)
    ∧ goalListArgs filters pagination
        = goalCountArgs filters
          ++ (if 0 < pagination.Limit then [SQLArg.int pagination.Limit] else [])
          ++ (if 0 < pagination.Offset then [SQLArg.int pagination.Offset] else []) := by
  have htext :
      hasSub " ORDER BY created_at DESC".toList
          (goalListQuery filters pagination) = true
      ∧ (hasSub " LIMIT ".toList (goalListQuery filters pagination) = true
          ↔ 0 < pagination.Limit)
      ∧ (hasSub " OFFSET ".toList (goalListQuery filters pagination) = true
          ↔ 0 < pagination.Offset) := by
    obtain ⟨q, ca, cb⟩ := filters
    rcases ca with _ | ta <;> rcases cb with _ | tb <;>
      by_cases hq : goTrimSpace q = [] <;>
        by_cases hl : 0 < pagination.Limit <;>
          by_cases ho : 0 < pagination.Offset <;>
            simp only [goalListQuery, goalListQueryBase,
              gfs_blank_none_none, gfs_blank_after_none, gfs_blank_none_before,
              gfs_blank_after_before, gfs_search_none_none, gfs_search_after_none,
              gfs_search_none_before, gfs_search_after_before, hq, hl, ho,
              if_true, if_false, ite_true, ite_false, iff_true, iff_false,
              not_true_eq_false, not_false_eq_true, eq_self_iff_true] <;>
            decide
  exact ⟨htext.1, htext.2.1, htext.2.2, goalListArgs_split filters pagination⟩

/-- C8: for any two filter values with the same set of criteria present,
`ListGoals` generates character-identical SQL text for both the COUNT and
the page query — the search term influences only the bound arguments,
where it appears wrapped with `%` wildcard markers on both sides. -/
theorem listGoals_text_independent_of_search_term
    (f₁ f₂ : GoalFilters) (pagination : Pagination)
    (hq : goTrimSpace f₁.Query = [] ↔ goTrimSpace f₂.Query = [])
    (ha : f₁.CreatedAfter.isSome = f₂.CreatedAfter.isSome)
    (hb : f₁.CreatedBefore.isSome = f₂.CreatedBefore.isSome) :
    goalCountQuery f₁ = goalCountQuery f₂
    ∧ goalListQuery f₁ pagination = goalListQuery f₂ pagination
    ∧ (¬goTrimSpace f₁.Query = [] →
        (goalCountArgs f₁).take 3
          = [.str ('%' :: (f₁.Query ++ ['%'])), .str ('%' :: (f₁.Query ++ ['%'])),
             .str ('%' :: (f₁.Query ++ ['%']))]) := by
  obtain ⟨q₁, ca₁, cb₁⟩ := f₁
  obtain ⟨q₂, ca₂, cb₂⟩ := f₂
  rcases ca₁ with _ | ta₁ <;> rcases ca₂ with _ | ta₂ <;>
    rcases cb₁ with _ | tb₁ <;> rcases cb₂ with _ | tb₂ <;>
      simp at ha hb
  all_goals
    by_cases hq₁ : goTrimSpace q₁ = []
  all_goals
    first
    | (have hq₂ : goTrimSpace q₂ = [] := hq.mp hq₁
       refine ⟨?_, ?_, fun h => absurd hq₁ h⟩ <;>
         simp only [goalCountQuery, goalListQuery, goalListQueryBase,
           gfs_blank_none_none, gfs_blank_after_none, gfs_blank_none_before,
           gfs_blank_after_before, hq₁, hq₂, not_false_eq_true,
           not_true_eq_false])
    | (have hq₂ : ¬goTrimSpace q₂ = [] := fun h => hq₁ (hq.mpr h)
       refine ⟨?_, ?_, fun _ => ?_⟩ <;>
         simp only [goalCountQuery, goalCountArgs, goalListQuery, goalListQueryBase,
           gfs_search_none_none, gfs_search_after_none, gfs_search_none_before,
           gfs_search_after_before, hq₁, hq₂, not_false_eq_true,
           not_true_eq_false]
       all_goals rfl)

/-- C8 witness: two different search terms with the same criteria shape
produce the same COUNT query text. -/
theorem listGoals_text_independent_witness :
    goalCountQuery ⟨"abc".toList, none, none⟩
      = goalCountQuery ⟨"xyz".toList, none, none⟩ :=
  (listGoals_text_independent_of_search_term
    ⟨"abc".toList, none, none⟩ ⟨"xyz".toList, none, none⟩ ⟨3, 0⟩
    (by decide) rfl rfl).1

end IntentService
